import Mathlib

/-!
# Verification of the pix-engine immediate-mode GUI core

Shallow embedding of the widget interaction and scroll-compositor code of
`src/gui/scroll.rs`, `src/gui/widgets.rs` and `src/core/texture.rs`.

Machine integers (`i32`) are modelled as unbounded `Int`; Rust's truncating
integer division `/` is `Int.div` (both round toward zero), `saturating_add`
and `saturating_sub` saturate at the `i32` bounds, and `clamp(lo, hi)` is
`max lo (min v hi)` (coinciding with Rust's `clamp` whenever `lo ≤ hi`).
The `f32` arithmetic used for the scrollbar thumb size is modelled by exact
rational arithmetic, with the `as i32` conversion as `Int.floor` (they agree
on the nonnegative in-range values arising here).

Calls into the UI interaction-state store (`s.ui.try_hover`, `try_focus`,
`is_active`, `was_clicked`, `key_entered`, the mouse snapshot, the global
`disabled` flag) resolve in `src/gui/state.rs`, which is not part of the
sources under verification; following the spec ("Input Arbitration" supplies
per-frame booleans to the widget functions), their per-frame results are
passed to each embedded function as explicit environment inputs.
-/

namespace PixEngine

/-- `THUMB_MIN` from `src/gui/scroll.rs`. -/
def THUMB_MIN : Int := 10

/-- `SCROLL_SIZE` from `src/gui/scroll.rs`. -/
def SCROLL_SIZE : Int := 12

/-- `SCROLL_SPEED` from `src/gui/scroll.rs`. -/
def SCROLL_SPEED : Int := 3

/-- `CHECKBOX_SIZE` from `src/gui/widgets.rs`. -/
def CHECKBOX_SIZE : Int := 16

/-- `RADIO_SIZE` from `src/gui/widgets.rs`. -/
def RADIO_SIZE : Int := 8

/-- The `i32` minimum, for the saturating arithmetic ops. -/
def I32_MIN : Int := -(2 ^ 31)

/-- The `i32` maximum, for the saturating arithmetic ops. -/
def I32_MAX : Int := 2 ^ 31 - 1

/-- Rust `v.clamp(lo, hi)` (for `lo ≤ hi`). -/
def clampI (v lo hi : Int) : Int := max lo (min v hi)

/-- Rust `a.saturating_sub(b)` on `i32`. -/
def satSub (a b : Int) : Int := clampI (a - b) I32_MIN I32_MAX

/-- Rust `a.saturating_add(b)` on `i32`. -/
def satAdd (a b : Int) : Int := clampI (a + b) I32_MIN I32_MAX

/-- An axis-aligned rectangle: `Rect<i32>` of the (external) geometry
library, with `left = x`, `top = y`, `right = x + width`,
`bottom = y + height`. -/
structure Rect where
  x : Int
  y : Int
  width : Int
  height : Int
deriving DecidableEq, Repr

/-- A 2-d integer point / vector (`Vector<i32>` scroll offsets). -/
structure Point2 where
  x : Int
  y : Int
deriving DecidableEq, Repr

/-- Scrollbar orientation, `Direction` of `src/gui`. -/
inductive Direction where
  | Horizontal
  | Vertical
deriving DecidableEq, Repr

/-- The keys the scroll code inspects (`Key::Up/Down/Left/Right`); `Other`
stands for every other key. -/
inductive Key where
  | Up
  | Down
  | Left
  | Right
  | Other
deriving DecidableEq, Repr

/-- The per-frame interaction inputs of one `scrollbar` call: the results of
`try_hover`, `try_focus`, `is_active` for the scrollbar's own element id,
the `key_entered` snapshot, the per-axis relative mouse motion
(`s.ui.mouse.xrel/yrel`) and the absolute mouse position (`s.mouse_pos()`). -/
structure ScrollbarEnv where
  hovered : Bool
  focused : Bool
  active : Bool
  keyEntered : Option Key
  mouseXRel : Int
  mouseYRel : Int
  mousePosX : Int
  mousePosY : Int
deriving DecidableEq, Repr

/-- A `ScrollbarEnv` in which nothing is hovered, focused or active and the
mouse is at rest. -/
def inertBarEnv : ScrollbarEnv :=
  { hovered := false, focused := false, active := false, keyEntered := none,
    mouseXRel := 0, mouseYRel := 0, mousePosX := 0, mousePosY := 0 }

/-- Thumb length as computed in `scrollbar` (`src/gui/scroll.rs` lines
221-236) before the (shadowed) min/max expression:
`((track / (max + track)) * track) as i32`, the `f32` arithmetic taken
exactly over `ℚ`. -/
def thumbLenRaw (track mx : Int) : Int :=
  ⌊((track : ℚ) / ((mx : ℚ) + (track : ℚ))) * (track : ℚ)⌋

/-- The full thumb-length expression `h.max(THUMB_MIN).min(h)` from
`src/gui/scroll.rs`: due to variable shadowing both occurrences of `h` are
the already-computed raw thumb length, so the clamp is applied to itself. -/
def thumbLen (track mx : Int) : Int :=
  min (max (thumbLenRaw track mx) THUMB_MIN) (thumbLenRaw track mx)

/-- The thumb rectangle drawn by `scrollbar` (`src/gui/scroll.rs` lines
221-247), computed from the in-place clamped `value`. -/
def scrollbarThumb (rect : Rect) (mx value : Int) (dir : Direction) : Rect :=
  let v := clampI value 0 mx
  match dir with
  | Direction.Horizontal =>
    let tw := thumbLen rect.width mx
    { x := rect.x + Int.tdiv ((rect.width - tw) * v) mx, y := rect.y,
      width := tw, height := rect.height }
  | Direction.Vertical =>
    let th := thumbLen rect.height mx
    { x := rect.x, y := rect.y + Int.tdiv ((rect.height - th) * v) mx,
      width := rect.width, height := th }

/-- The candidate `new_value` computed by `scrollbar` (`src/gui/scroll.rs`
lines 251-287) from the in-place clamped `value`: keyboard step while
focused, then mouse wheel while hovered, then direct drag while active. -/
def scrollbarNewValue (rect : Rect) (mx value : Int) (dir : Direction)
    (env : ScrollbarEnv) : Int :=
  let v := clampI value 0 mx
  let nv := v
  let nv :=
    if env.focused then
      match env.keyEntered, dir with
      | some Key.Up, Direction.Vertical => max (satSub v SCROLL_SPEED) 0
      | some Key.Left, Direction.Horizontal => max (satSub v SCROLL_SPEED) 0
      | some Key.Down, Direction.Vertical => min (satAdd v SCROLL_SPEED) mx
      | some Key.Right, Direction.Horizontal => min (satAdd v SCROLL_SPEED) mx
      | _, _ => nv
    else nv
  let nv :=
    if env.hovered then
      nv - SCROLL_SPEED *
        (match dir with
         | Direction.Horizontal => env.mouseXRel
         | Direction.Vertical => env.mouseYRel)
    else nv
  if env.active then
    match dir with
    | Direction.Horizontal =>
      Int.tdiv (clampI (env.mousePosX - rect.x) 0 rect.width * mx) rect.width
    | Direction.Vertical =>
      Int.tdiv (clampI (env.mousePosY - rect.y) 0 rect.height * mx) rect.height
  else nv

/-- Result of one `scrollbar` call: the value committed back through the
`&mut i32` argument, the returned `bool`, and the drawn thumb rectangle. -/
structure ScrollbarResult where
  value : Int
  scrolled : Bool
  thumbRect : Rect
deriving DecidableEq, Repr

/-- `PixState::scrollbar` (`src/gui/scroll.rs` lines 187-296): clamps the
incoming value in place, draws the thumb, folds the three input sources into
`new_value`, and commits `new_value.clamp(0, max)` returning `true` exactly
when `new_value` differs from the clamped incoming value. -/
def scrollbar (rect : Rect) (mx value : Int) (dir : Direction)
    (env : ScrollbarEnv) : ScrollbarResult :=
  let v := clampI value 0 mx
  let nv := scrollbarNewValue rect mx value dir env
  if nv = v then
    { value := v, scrolled := false, thumbRect := scrollbarThumb rect mx value dir }
  else
    { value := clampI nv 0 mx, scrolled := true,
      thumbRect := scrollbarThumb rect mx value dir }

/-- The per-frame interaction inputs of one `scroll` call: hover/focus of
the scroll-area element itself, the `key_entered` snapshot, the relative
mouse motion, and the interaction inputs of the two scrollbar widgets
(each scrollbar has its own element id hashed from its rectangle). -/
structure ScrollEnv where
  hovered : Bool
  focused : Bool
  keyEntered : Option Key
  xrel : Int
  yrel : Int
  envV : ScrollbarEnv
  envH : ScrollbarEnv
deriving DecidableEq, Repr

/-- A `ScrollEnv` in which nothing is hovered or focused and the mouse is
at rest. -/
def inertScrollEnv : ScrollEnv :=
  { hovered := false, focused := false, keyEntered := none,
    xrel := 0, yrel := 0, envV := inertBarEnv, envH := inertBarEnv }

/-- Modelled from the spec: `set_scroll` of the Interaction State Store
(`src/gui/state.rs`, not among the sources) stores the per-identifier
sticky `scroll_offset` record; updating one id leaves every other record
unchanged. -/
def setScroll (store : Nat → Point2) (id : Nat) (p : Point2) : Nat → Point2 :=
  fun j => if j = id then p else store j

/-- The vertical block of `PixState::scroll` (`src/gui/scroll.rs` lines
114-144): wheel while the area is hovered, Up/Down keys while focused, then
the vertical `scrollbar` on the track at the right edge, whose result is
taken only when it reports a change. -/
def scrollAxisY (scroll0 ns : Point2) (rect : Rect) (ymax : Int)
    (hovered focused : Bool) (key : Option Key) (yrel : Int)
    (envV : ScrollbarEnv) : Point2 :=
  let ns :=
    if hovered then
      { ns with y := clampI (scroll0.y + SCROLL_SPEED * yrel) 0 ymax }
    else ns
  let ns :=
    if focused then
      match key with
      | some Key.Up => { ns with y := clampI (scroll0.y - SCROLL_SPEED) 0 ymax }
      | some Key.Down => { ns with y := clampI (scroll0.y + SCROLL_SPEED) 0 ymax }
      | _ => ns
    else ns
  let sb := scrollbar
    { x := rect.x + rect.width, y := rect.y, width := SCROLL_SIZE, height := rect.height }
    ymax ns.y Direction.Vertical envV
  if sb.scrolled then { ns with y := sb.value } else ns

/-- The horizontal block of `PixState::scroll` (`src/gui/scroll.rs` lines
146-176), symmetric to `scrollAxisY` with the track along the bottom edge. -/
def scrollAxisX (scroll0 ns : Point2) (rect : Rect) (xmax : Int)
    (hovered focused : Bool) (key : Option Key) (xrel : Int)
    (envH : ScrollbarEnv) : Point2 :=
  let ns :=
    if hovered then
      { ns with x := clampI (scroll0.x + SCROLL_SPEED * xrel) 0 xmax }
    else ns
  let ns :=
    if focused then
      match key with
      | some Key.Left => { ns with x := clampI (scroll0.x - SCROLL_SPEED) 0 xmax }
      | some Key.Right => { ns with x := clampI (scroll0.x + SCROLL_SPEED) 0 xmax }
      | _ => ns
    else ns
  let sb := scrollbar
    { x := rect.x, y := rect.y + rect.height, width := rect.width, height := SCROLL_SIZE }
    xmax ns.x Direction.Horizontal envH
  if sb.scrolled then { ns with x := sb.value } else ns

/-- The `new_scroll` value at the end of `PixState::scroll`
(`src/gui/scroll.rs` lines 109-176): each axis block runs only when its
range `max` is positive. -/
def scrollNewScroll (store : Nat → Point2) (id : Nat) (rect : Rect)
    (width height : Int) (env : ScrollEnv) : Point2 :=
  let scroll0 := store id
  let xmax := width - rect.width
  let ymax := height - rect.height
  let ns := scroll0
  let ns :=
    if 0 < ymax then
      scrollAxisY scroll0 ns rect ymax env.hovered env.focused env.keyEntered env.yrel env.envV
    else ns
  if 0 < xmax then
    scrollAxisX scroll0 ns rect xmax env.hovered env.focused env.keyEntered env.xrel env.envH
  else ns

/-- Result of one `scroll` call: the (possibly updated) interaction state
store and the rectangle returned for layout advancement. -/
structure ScrollResult where
  store : Nat → Point2
  rect : Rect

/-- `PixState::scroll` (`src/gui/scroll.rs` lines 100-185): computes the new
scroll vector, writes it to the store only when it differs from the stored
one, and returns the viewport rectangle grown by `SCROLL_SIZE` in width and
height (`offset_width` / `offset_height`). -/
def scroll (store : Nat → Point2) (id : Nat) (rect : Rect)
    (width height : Int) (env : ScrollEnv) : ScrollResult :=
  let scroll0 := store id
  let ns := scrollNewScroll store id rect width height env
  { store := if ns = scroll0 then store else setScroll store id ns,
    rect := { x := rect.x, y := rect.y,
              width := rect.width + SCROLL_SIZE,
              height := rect.height + SCROLL_SIZE } }

/-- The per-frame interaction inputs of one widget call (button, checkbox,
radio): results of `try_hover` / `try_focus` / `is_active` /
`was_clicked` for the widget's id, and the global `disabled` flag. -/
structure WidgetEnv where
  hovered : Bool
  focused : Bool
  active : Bool
  disabled : Bool
  wasClicked : Bool
deriving DecidableEq, Repr

/-- Result of a `button` call: the returned `bool` and the rectangle passed
to `advance_cursor`. -/
structure ButtonResult where
  clicked : Bool
  advanceRect : Rect
deriving DecidableEq, Repr

/-- `PixState::button` (`src/gui/widgets.rs` lines 55-131): the button
rectangle is offset by (1, 1) while hovered and active, the cursor advances
by that rectangle unconditionally, and `was_clicked` is returned unless the
global disabled flag is set. -/
def button (pos : Point2) (width height padx pady : Int)
    (env : WidgetEnv) : ButtonResult :=
  let b : Rect := { x := pos.x, y := pos.y,
                    width := width + 2 * padx, height := height + 2 * pady }
  let b := if env.hovered && env.active then
      { b with x := b.x + 1, y := b.y + 1 }
    else b
  { clicked := if !env.disabled then env.wasClicked else false,
    advanceRect := b }

/-- Result of a `checkbox` call: the returned `toggled` flag, the value
committed back through the `&mut bool` argument, and the rectangle passed
to `advance_cursor`. -/
structure CheckboxResult where
  toggled : Bool
  checked : Bool
  advanceRect : Rect
deriving DecidableEq, Repr

/-- `PixState::checkbox` (`src/gui/widgets.rs` lines 147-224): the cursor
advances by the fixed `CHECKBOX_SIZE` square; unless disabled, a click
inverts the referenced `checked` flag and is returned. -/
def checkbox (pos : Point2) (checked : Bool) (env : WidgetEnv) : CheckboxResult :=
  let cb : Rect := { x := pos.x, y := pos.y,
                     width := CHECKBOX_SIZE, height := CHECKBOX_SIZE }
  if !env.disabled then
    let clicked := env.wasClicked
    { toggled := clicked,
      checked := if clicked then !checked else checked,
      advanceRect := cb }
  else
    { toggled := false, checked := checked, advanceRect := cb }

/-- Result of a `radio` call: the returned flag, the value committed back
through the `&mut usize` argument, and the rectangle passed to
`advance_cursor`. -/
structure RadioResult where
  selectedNow : Bool
  selected : Int
  advanceRect : Rect
deriving DecidableEq, Repr

/-- `PixState::radio` (`src/gui/widgets.rs` lines 242-310): the cursor
advances by the bounding rectangle of the radio circle (a square of side
`2 * RADIO_SIZE`); unless disabled, a click stores `index` into the
referenced selection and is returned. -/
def radio (pos : Point2) (selected index : Int) (env : WidgetEnv) : RadioResult :=
  let r : Rect := { x := pos.x, y := pos.y,
                    width := 2 * RADIO_SIZE, height := 2 * RADIO_SIZE }
  if !env.disabled then
    let clicked := env.wasClicked
    { selectedNow := clicked,
      selected := if clicked then index else selected,
      advanceRect := r }
  else
    { selectedNow := false, selected := selected, advanceRect := r }

/-- Colors are opaque to the GUI core; the claims only compare them for
equality, so they are modelled as integers. -/
abbrev Color := Int

/-- One recorded drawing operation, tagged with the render target it was
issued against (`none` is the canvas, `some t` the offscreen texture `t`).
`rect` records the fill and stroke settings in force at the call. -/
inductive DrawOp where
  | background (c : Color) (target : Option Nat)
  | rect (r : Rect) (fill : Option Color) (stroke : Option Color) (target : Option Nat)
deriving DecidableEq, Repr

/-- The slice of `PixState` the texture and scroll-area code manipulates:
the current fill and stroke colors, the current texture target, the
settings stack driven by `push` / `pop`, and the trace of drawing
operations issued so far. -/
structure PState where
  fill : Option Color
  stroke : Option Color
  target : Option Nat
  stack : List (Option Color × Option Color)
  ops : List DrawOp
deriving DecidableEq, Repr

/-- `PixState::push`: saves the current settings on the stack. -/
def push (s : PState) : PState :=
  { s with stack := (s.fill, s.stroke) :: s.stack }

/-- `PixState::pop`: restores the most recently pushed settings (a no-op on
an empty stack). -/
def pop (s : PState) : PState :=
  match s.stack with
  | [] => s
  | (f, st) :: rest => { s with fill := f, stroke := st, stack := rest }

/-- `Renderer::set_texture_target`. -/
def setTexTarget (tex : Nat) (s : PState) : PState := { s with target := some tex }

/-- `Renderer::clear_texture_target`. -/
def clearTexTarget (s : PState) : PState := { s with target := none }

/-- `PixState::fill(color)`. -/
def setFill (c : Color) (s : PState) : PState := { s with fill := some c }

/-- `PixState::no_fill`. -/
def noFill (s : PState) : PState := { s with fill := none }

/-- `PixState::stroke(color)`. -/
def setStroke (c : Color) (s : PState) : PState := { s with stroke := some c }

/-- `PixState::no_stroke`. -/
def noStroke (s : PState) : PState := { s with stroke := none }

/-- `PixState::background(color)`: records a clear of the current target. -/
def backgroundOp (c : Color) (s : PState) : PState :=
  { s with ops := s.ops ++ [DrawOp.background c s.target] }

/-- `PixState::rect(r)`: records a rectangle drawn with the current fill,
stroke and target. -/
def rectOp (r : Rect) (s : PState) : PState :=
  { s with ops := s.ops ++ [DrawOp.rect r s.fill s.stroke s.target] }

/-- `PixState::with_texture` (`src/core/texture.rs` lines 151-162): push
settings, set the texture target, run the closure (whose state mutations
persist even when it errors), clear the target, pop the settings, and
return the closure's result. Closures are modelled as state transformers
paired with an optional error. -/
def withTexture (tex : Nat) (f : PState → PState × Option Nat) (s : PState) :
    PState × Option Nat :=
  let s1 := push s
  let s2 := setTexTarget tex s1
  let p := f s2
  let s3 := clearTexTarget p.1
  let s4 := pop s3
  (s4, p.2)

/-- The closure passed to `with_texture` by `scroll_area`
(`src/gui/scroll.rs` lines 60-80): clear to the background color, draw the
content, then mask overdraw with four background-color rectangles over the
top, left, right and bottom frame-padding margins (clip does not work on
texture targets), and finally stroke the outline. An error from the content
closure propagates immediately via `?`. `w`/`h` are the scroll-area size
and `px`/`py` the frame padding. -/
def scrollAreaTexClosure (bg fg stC : Color) (w h px py : Int)
    (f : PState → PState × Option Nat) : PState → PState × Option Nat :=
  fun s =>
    let s := backgroundOp bg s
    let s := noStroke s
    let s := setFill fg s
    let p := f s
    match p.2 with
    | some e => (p.1, some e)
    | none =>
      let s := p.1
      let s := setFill bg s
      let s := rectOp { x := 0, y := 0, width := w, height := py } s
      let s := rectOp { x := 0, y := 0, width := px, height := h } s
      let s := rectOp { x := w - px, y := 0, width := px, height := h } s
      let s := rectOp { x := 0, y := h - py, width := w, height := py } s
      let s := setStroke stC s
      let s := noFill s
      let s := rectOp { x := 0, y := 0, width := w, height := h } s
      (s, none)

/-- The `with_texture` call made by `scroll_area` (`src/gui/scroll.rs`
lines 60-80). -/
def scrollAreaTexture (tex : Nat) (bg fg stC : Color) (w h px py : Int)
    (f : PState → PState × Option Nat) (s : PState) : PState × Option Nat :=
  withTexture tex (scrollAreaTexClosure bg fg stC w h px py f) s

/-- The state handed to the content closure of `scrollAreaTexClosure`
(after `push`, targeting, background clear, `no_stroke`, `fill fg`). -/
def scrollAreaPrep (tex : Nat) (bg fg : Color) (s : PState) : PState :=
  setFill fg (noStroke (backgroundOp bg (setTexTarget tex (push s))))

/-- The interaction state store with every scroll offset at the origin. -/
def store0 : Nat → Point2 := fun _ => { x := 0, y := 0 }

/-- A fresh render state: no fill, no stroke, canvas target, empty stack
and trace. -/
def emptyPState : PState :=
  { fill := none, stroke := none, target := none, stack := [], ops := [] }

/-- A render state with fill color 1 and stroke color 2 set. -/
def pstate12 : PState :=
  { fill := some 1, stroke := some 2, target := none, stack := [], ops := [] }

/-- A content closure that draws nothing and succeeds. -/
def idClosure : PState → PState × Option Nat := fun t => (t, none)

/-- A content closure that changes the fill color and then errors. -/
def errClosure : PState → PState × Option Nat :=
  fun t => ({ t with fill := some 9 }, some 7)

/-! ## Helper lemmas -/

lemma le_clampI (v lo hi : Int) : lo ≤ clampI v lo hi := le_max_left _ _

lemma clampI_le (v lo hi : Int) (h : lo ≤ hi) : clampI v lo hi ≤ hi :=
  max_le h (min_le_right _ _)

lemma thumbLen_eq_raw (track mx : Int) : thumbLen track mx = thumbLenRaw track mx :=
  min_eq_right (le_max_left _ _)

lemma scrollAxisX_y (scroll0 ns : Point2) (rect : Rect) (xmax : Int)
    (hov foc : Bool) (key : Option Key) (xrel : Int) (envH : ScrollbarEnv) :
    (scrollAxisX scroll0 ns rect xmax hov foc key xrel envH).y = ns.y := by
  unfold scrollAxisX
  dsimp only
  repeat' split
  all_goals rfl

lemma scrollNewScroll_of_ymax_nonpos (store : Nat → Point2) (id : Nat)
    (rect : Rect) (w h : Int) (env : ScrollEnv) (hy : h - rect.height ≤ 0) :
    scrollNewScroll store id rect w h env =
      (if 0 < w - rect.width then
        scrollAxisX (store id) (store id) rect (w - rect.width)
          env.hovered env.focused env.keyEntered env.xrel env.envH
      else store id) := by
  unfold scrollNewScroll
  dsimp only
  rw [if_neg (show ¬ 0 < h - rect.height by omega)]

lemma pop_ops (s : PState) : (pop s).ops = s.ops := by
  unfold pop
  split <;> rfl

lemma popClear (t : PState) (a b : Option Color)
    (rest : List (Option Color × Option Color)) (ht : t.stack = (a, b) :: rest) :
    pop (clearTexTarget t) =
      { fill := a, stroke := b, target := none, stack := rest, ops := t.ops } := by
  cases t
  dsimp only at ht
  dsimp only [clearTexTarget, pop]
  rw [ht]

/-! ## Claims -/

/-- C1: for every call to the scrollbar sub-algorithm with scrollable range
`max > 0` and every input `value` (including values outside `[0, max]`),
the value committed back to the caller lies within `[0, max]` inclusive. -/
theorem c1_scrollbar_clamp (rect : Rect) (mx value : Int) (dir : Direction)
    (env : ScrollbarEnv) (hmx : 0 < mx) :
    0 ≤ (scrollbar rect mx value dir env).value ∧
      (scrollbar rect mx value dir env).value ≤ mx := by
  simp only [scrollbar]
  split <;> exact ⟨le_clampI _ _ _, clampI_le _ _ _ hmx.le⟩

/-- Witness for C1 at track `⟨0,0,12,100⟩`, `max = 10`, `value = 37`. -/
theorem c1_scrollbar_clamp_witness :
    0 < (10 : Int) ∧
      (0 ≤ (scrollbar ⟨0, 0, 12, 100⟩ 10 37 Direction.Vertical inertBarEnv).value ∧
        (scrollbar ⟨0, 0, 12, 100⟩ 10 37 Direction.Vertical inertBarEnv).value ≤ 10) :=
  ⟨by norm_num, c1_scrollbar_clamp ⟨0, 0, 12, 100⟩ 10 37 Direction.Vertical inertBarEnv (by norm_num)⟩

/-- C2: the claim asks that the thumb length never falls below the
configured minimum (`THUMB_MIN = 10`), but the `h.max(THUMB_MIN).min(h)`
expression in `scrollbar` clamps the already-computed thumb length against
itself (variable shadowing), so it is the identity: with track length 100
and `max = 10000` the computed thumb length is 0, below the minimum. -/
theorem c2_thumb_min_violated :
    thumbLen 100 10000 = 0 ∧ thumbLen 100 10000 < THUMB_MIN ∧
      ∀ track mx : Int, thumbLen track mx = thumbLenRaw track mx := by
  refine ⟨?_, ?_, fun t m => thumbLen_eq_raw t m⟩ <;>
    norm_num [thumbLen, thumbLenRaw, THUMB_MIN]

/-- C3: for a vertical scrollbar with track length 100, `max = 50`,
`value = 0`, the thumb length is 66 and the thumb sits at position 0 within
the track; in general the drawn vertical thumb offset is
`(track_length - thumb_length) * value / max` in truncating integer
division, applied to the clamped value. -/
theorem c3_thumb_scenario :
    thumbLen 100 50 = 66 ∧
      (scrollbar ⟨0, 0, 12, 100⟩ 50 0 Direction.Vertical inertBarEnv).thumbRect =
        ⟨0, 0, 12, 66⟩ ∧
      ∀ (rect : Rect) (mx value : Int) (env : ScrollbarEnv),
        (scrollbar rect mx value Direction.Vertical env).thumbRect =
          ⟨rect.x,
            rect.y + Int.tdiv ((rect.height - thumbLen rect.height mx) * clampI value 0 mx) mx,
            rect.width, thumbLen rect.height mx⟩ := by
  have hgen : ∀ (rect : Rect) (mx value : Int) (env : ScrollbarEnv),
      (scrollbar rect mx value Direction.Vertical env).thumbRect =
        ⟨rect.x,
          rect.y + Int.tdiv ((rect.height - thumbLen rect.height mx) * clampI value 0 mx) mx,
          rect.width, thumbLen rect.height mx⟩ := by
    intro rect mx value env
    unfold scrollbar
    dsimp only
    split <;> simp [scrollbarThumb]
  have h66 : thumbLen 100 50 = 66 := by
    norm_num [thumbLen, thumbLenRaw, THUMB_MIN]
  refine ⟨h66, ?_, hgen⟩
  rw [hgen]
  norm_num [h66, clampI]

/-- C4: with the global disabled flag set, each of button, checkbox and
radio returns `false` and leaves the caller-referenced state unchanged,
while the rectangle passed to `advance_cursor` is exactly the one of the
enabled call — disabling never changes geometry. -/
theorem c4_disabled_widgets (pos : Point2) (w h padx pady : Int)
    (checked : Bool) (sel idx : Int) (env : WidgetEnv) :
    ((button pos w h padx pady { env with disabled := true }).clicked = false ∧
      (button pos w h padx pady { env with disabled := true }).advanceRect =
        (button pos w h padx pady { env with disabled := false }).advanceRect) ∧
    ((checkbox pos checked { env with disabled := true }).toggled = false ∧
      (checkbox pos checked { env with disabled := true }).checked = checked ∧
      (checkbox pos checked { env with disabled := true }).advanceRect =
        (checkbox pos checked { env with disabled := false }).advanceRect) ∧
    ((radio pos sel idx { env with disabled := true }).selectedNow = false ∧
      (radio pos sel idx { env with disabled := true }).selected = sel ∧
      (radio pos sel idx { env with disabled := true }).advanceRect =
        (radio pos sel idx { env with disabled := false }).advanceRect) := by
  simp [button, checkbox, radio]

/-- C5: with the disabled flag unset, a checkbox call inverts the
referenced `checked` flag exactly when it returns `true`, and leaves it
unchanged when it returns `false`. -/
theorem c5_checkbox_toggle (pos : Point2) (checked : Bool) (env : WidgetEnv)
    (hd : env.disabled = false) :
    ((checkbox pos checked env).checked = !checked ↔
        (checkbox pos checked env).toggled = true) ∧
      ((checkbox pos checked env).toggled = false →
        (checkbox pos checked env).checked = checked) := by
  simp only [checkbox, hd]
  cases hw : env.wasClicked <;> cases checked <;> simp

/-- Witness for C5: an enabled, clicked checkbox starting unchecked. -/
theorem c5_checkbox_toggle_witness :
    ({ hovered := true, focused := false, active := false, disabled := false,
        wasClicked := true } : WidgetEnv).disabled = false ∧
      (((checkbox ⟨0, 0⟩ false
            { hovered := true, focused := false, active := false,
              disabled := false, wasClicked := true }).checked = !false ↔
          (checkbox ⟨0, 0⟩ false
            { hovered := true, focused := false, active := false,
              disabled := false, wasClicked := true }).toggled = true) ∧
        ((checkbox ⟨0, 0⟩ false
            { hovered := true, focused := false, active := false,
              disabled := false, wasClicked := true }).toggled = false →
          (checkbox ⟨0, 0⟩ false
            { hovered := true, focused := false, active := false,
              disabled := false, wasClicked := true }).checked = false)) :=
  ⟨rfl, c5_checkbox_toggle ⟨0, 0⟩ false
    { hovered := true, focused := false, active := false, disabled := false,
      wasClicked := true } rfl⟩

/-- C6: when an axis' scrollable range is non-positive (`ymax ≤ 0` for the
vertical axis), the scrollbar sub-algorithm for that axis is skipped
entirely — the result does not depend on the vertical scrollbar's inputs —
and that axis' stored scroll offset is left unchanged. -/
theorem c6_scroll_skip (store : Nat → Point2) (id : Nat) (rect : Rect)
    (w h : Int) (env : ScrollEnv) (hy : h - rect.height ≤ 0) :
    ((scroll store id rect w h env).store id).y = (store id).y ∧
      ∀ e1 : ScrollbarEnv,
        scroll store id rect w h { env with envV := e1 } =
          scroll store id rect w h env := by
  have hns : (scrollNewScroll store id rect w h env).y = (store id).y := by
    rw [scrollNewScroll_of_ymax_nonpos store id rect w h env hy]
    split
    · exact scrollAxisX_y _ _ _ _ _ _ _ _ _
    · rfl
  constructor
  · by_cases hc : scrollNewScroll store id rect w h env = store id
    · simp [scroll, hc]
    · simp [scroll, hc, setScroll, hns]
  · intro e1
    have heq : scrollNewScroll store id rect w h { env with envV := e1 } =
        scrollNewScroll store id rect w h env := by
      rw [scrollNewScroll_of_ymax_nonpos store id rect w h _ hy,
        scrollNewScroll_of_ymax_nonpos store id rect w h env hy]
    unfold scroll
    rw [heq]

/-- Witness for C6: a 100×100 viewport whose content is 300 wide but only
50 tall, with the area hovered and the mouse wheel moving. -/
theorem c6_scroll_skip_witness :
    (50 : Int) - (Rect.mk 0 0 100 100).height ≤ 0 ∧
      (((scroll store0 0 ⟨0, 0, 100, 100⟩ 300 50
            { inertScrollEnv with hovered := true, yrel := 2 }).store 0).y =
          (store0 0).y ∧
        ∀ e1 : ScrollbarEnv,
          scroll store0 0 ⟨0, 0, 100, 100⟩ 300 50
              { { inertScrollEnv with hovered := true, yrel := 2 } with envV := e1 } =
            scroll store0 0 ⟨0, 0, 100, 100⟩ 300 50
              { inertScrollEnv with hovered := true, yrel := 2 }) :=
  ⟨by norm_num, c6_scroll_skip store0 0 ⟨0, 0, 100, 100⟩ 300 50
    { inertScrollEnv with hovered := true, yrel := 2 } (by norm_num)⟩

/-- C7 counterexample: with a 100×100 viewport and 10×10 virtual content
(no axis overflows), the rectangle returned for layout advancement is still
grown by the scrollbar thickness on both axes, contradicting the claim that
it grows only on an overflowing axis. -/
theorem c7_grow_counterexample :
    (scroll store0 0 ⟨0, 0, 100, 100⟩ 10 10 inertScrollEnv).rect = ⟨0, 0, 112, 112⟩ ∧
      (10 : Int) ≤ 100 ∧ ((⟨0, 0, 112, 112⟩ : Rect) ≠ ⟨0, 0, 100, 100⟩) := by
  refine ⟨rfl, by norm_num, by decide⟩

/-- C7 amended: the rectangle returned by `scroll` for layout advancement
is always the viewport rectangle grown by the scrollbar thickness
`SCROLL_SIZE` in both width and height, regardless of which axes
overflow. -/
theorem c7_scroll_growth (store : Nat → Point2) (id : Nat) (rect : Rect)
    (w h : Int) (env : ScrollEnv) :
    (scroll store id rect w h env).rect =
      ⟨rect.x, rect.y, rect.width + SCROLL_SIZE, rect.height + SCROLL_SIZE⟩ := rfl

/-- C8: inside the `with_texture` call of `scroll_area`, after the content
closure returns successfully, exactly four opaque background-color
rectangles covering the top, left, right and bottom frame-padding margins
of the viewport are drawn (in that order, followed only by the stroked
outline), all issued against the offscreen texture target. -/
theorem c8_fake_clip (tex : Nat) (bg fg stC : Color) (w h px py : Int)
    (f : PState → PState × Option Nat) (s sMid : PState) (fOps : List DrawOp)
    (hf : f (scrollAreaPrep tex bg fg s) = (sMid, none))
    (hops : sMid.ops = s.ops ++ DrawOp.background bg (some tex) :: fOps)
    (htgt : sMid.target = some tex) :
    (scrollAreaTexture tex bg fg stC w h px py f s).1.ops =
      s.ops ++ DrawOp.background bg (some tex) :: (fOps ++
        [DrawOp.rect ⟨0, 0, w, py⟩ (some bg) sMid.stroke (some tex),
          DrawOp.rect ⟨0, 0, px, h⟩ (some bg) sMid.stroke (some tex),
          DrawOp.rect ⟨w - px, 0, px, h⟩ (some bg) sMid.stroke (some tex),
          DrawOp.rect ⟨0, h - py, w, py⟩ (some bg) sMid.stroke (some tex),
          DrawOp.rect ⟨0, 0, w, h⟩ none (some stC) (some tex)]) := by
  have hpre : scrollAreaPrep tex bg fg s =
      setFill fg (noStroke (backgroundOp bg (setTexTarget tex (push s)))) := rfl
  unfold scrollAreaTexture withTexture scrollAreaTexClosure
  dsimp only
  rw [← hpre, hf]
  dsimp only
  simp [pop_ops, clearTexTarget, rectOp, setFill, setStroke, noFill, htgt, hops]

/-- Witness for C8: identity content closure on a fresh state. -/
theorem c8_fake_clip_witness :
    (scrollAreaTexture 0 1 2 3 50 40 4 5 idClosure emptyPState).1.ops =
      [DrawOp.background 1 (some 0),
        DrawOp.rect ⟨0, 0, 50, 5⟩ (some 1) none (some 0),
        DrawOp.rect ⟨0, 0, 4, 40⟩ (some 1) none (some 0),
        DrawOp.rect ⟨46, 0, 4, 40⟩ (some 1) none (some 0),
        DrawOp.rect ⟨0, 35, 50, 5⟩ (some 1) none (some 0),
        DrawOp.rect ⟨0, 0, 50, 40⟩ none (some 3) (some 0)] := by
  have h := c8_fake_clip 0 1 2 3 50 40 4 5 idClosure emptyPState
    (scrollAreaPrep 0 1 2 emptyPState) [] rfl rfl rfl
  simpa [scrollAreaPrep, emptyPState, setFill, noStroke, backgroundOp,
    setTexTarget, push] using h

/-- C9: `with_texture` always clears the texture draw-target and pops the
pushed settings, even when the content closure returns an error, and the
closure's result (in particular its error) is returned unchanged. The
hypothesis states that the closure is push/pop balanced. -/
theorem c9_with_texture_restores (tex : Nat) (f : PState → PState × Option Nat)
    (s : PState)
    (hstack : (f (setTexTarget tex (push s))).1.stack = (s.fill, s.stroke) :: s.stack) :
    (withTexture tex f s).1.fill = s.fill ∧
      (withTexture tex f s).1.stroke = s.stroke ∧
      (withTexture tex f s).1.stack = s.stack ∧
      (withTexture tex f s).1.target = none ∧
      (withTexture tex f s).2 = (f (setTexTarget tex (push s))).2 := by
  unfold withTexture
  dsimp only
  rw [popClear _ _ _ _ hstack]
  exact ⟨rfl, rfl, rfl, rfl, rfl⟩

/-- Witness for C9: a closure that changes the fill and returns an error;
the settings and target are restored and the error comes back unchanged. -/
theorem c9_with_texture_restores_witness :
    (errClosure (setTexTarget 0 (push pstate12))).1.stack =
        (pstate12.fill, pstate12.stroke) :: pstate12.stack ∧
      ((withTexture 0 errClosure pstate12).1.fill = some 1 ∧
        (withTexture 0 errClosure pstate12).1.stroke = some 2 ∧
        (withTexture 0 errClosure pstate12).1.stack = [] ∧
        (withTexture 0 errClosure pstate12).1.target = none ∧
        (withTexture 0 errClosure pstate12).2 = some 7) :=
  ⟨rfl, c9_with_texture_restores 0 errClosure pstate12 rfl⟩

/-- C10 counterexample: with `max = 10` and stored `value = 10`, a wheel
motion makes `scrollbar` return `true` although the committed value equals
the clamped input — "returns true" is not equivalent to "changed the
caller's value from its clamped input". -/
theorem c10_scrolled_counterexample :
    ¬ (((scrollbar ⟨0, 0, 12, 100⟩ 10 10 Direction.Vertical
            { inertBarEnv with hovered := true, mouseYRel := -1 }).scrolled = true) ↔
        ((scrollbar ⟨0, 0, 12, 100⟩ 10 10 Direction.Vertical
            { inertBarEnv with hovered := true, mouseYRel := -1 }).value ≠
          clampI 10 0 10)) := by
  norm_num [scrollbar, scrollbarNewValue, clampI, inertBarEnv, SCROLL_SPEED]

/-- C10 amended: `scrollbar` returns `true` exactly when the newly computed
(pre-clamp) value differs from the clamped input value — the committed
value, being re-clamped, may still equal the clamped input — and `scroll`
writes a widget's offset to the state store exactly when the newly computed
scroll vector differs from the stored one, leaving the store untouched
otherwise. -/
theorem c10_scrolled_iff :
    (∀ (rect : Rect) (mx value : Int) (dir : Direction) (env : ScrollbarEnv),
        ((scrollbar rect mx value dir env).scrolled = true ↔
          scrollbarNewValue rect mx value dir env ≠ clampI value 0 mx)) ∧
      ∀ (store : Nat → Point2) (id : Nat) (rect : Rect) (w h : Int) (env : ScrollEnv),
        (scroll store id rect w h env).store =
          if scrollNewScroll store id rect w h env = store id then store
          else setScroll store id (scrollNewScroll store id rect w h env) := by
  constructor
  · intro rect mx value dir env
    unfold scrollbar
    dsimp only
    split
    · simp [*]
    · simp [*]
  · intro store id rect w h env
    rfl

end PixEngine
